import Mathlib

/-!
# Verification of the Crop-Yield-Prediction client orchestration core

Shallow embedding of the client-side orchestration state machine of
`src/frontend/src/App.jsx`: model selection with transient status messages,
the upload gate and its history-refresh counter, and the two panel
visibility flags.  Time is modelled explicitly in milliseconds so that the
`setTimeout`-based message expiry of the source can be reasoned about; the
pending timeout callbacks are kept as a list of deadlines, each callback
setting the message to the empty string exactly as the source closures do.
-/

namespace CropYield

/-- The combined component state of `App` and `AppContent` in
`src/frontend/src/App.jsx`:
`showHistory`, `showDelete`, `historyTrigger` are the `useState` hooks of
`App` (lines 13-15); `selectedModel`, `modelMessage`, `showModelSelection`
are the `useState` hooks of `AppContent` (lines 60-62).  `timers` holds the
deadlines of the pending `setTimeout` callbacks (each callback is
`() => setModelMessage("")`), and `now` is the current time in
milliseconds. -/
structure AppState where
  showHistory : Bool
  showDelete : Bool
  historyTrigger : Nat
  selectedModel : String
  modelMessage : String
  showModelSelection : Bool
  timers : List Nat
  now : Nat
  deriving Repr, DecidableEq

/-- The initial state: every `useState` initialiser from the source
(`false`, `false`, `0`, `""`, `""`, `true`); no pending timeout; time 0. -/
def initState : AppState :=
  { showHistory := false
    showDelete := false
    historyTrigger := 0
    selectedModel := ""
    modelMessage := ""
    showModelSelection := true
    timers := []
    now := 0 }

/-- `handleModelChange` (App.jsx lines 65-72): store the chosen value in
`selectedModel`, display the message built from the template literal
`Model "${model}" selected!`, and schedule a `setTimeout` of 1000 ms that
clears the message.  The source never calls `clearTimeout`, so previously
scheduled deadlines stay in `timers`. -/
def handleModelChange (model : String) (s : AppState) : AppState :=
  { s with
    selectedModel := model
    modelMessage := "Model \"" ++ model ++ "\" selected!"
    timers := s.timers ++ [s.now + 1000] }

/-- `handleUploadSuccess` (App.jsx lines 17-19): increment the
`historyTrigger` counter by one. -/
def handleUploadSuccess (s : AppState) : AppState :=
  { s with historyTrigger := s.historyTrigger + 1 }

/-- `handleUpload` (App.jsx lines 75-85).  If no model is selected it shows
the "Please select a model before uploading!" message, schedules its 1000 ms
expiry, and returns early (`false` = the gate rejected); otherwise it hides
the model selection and calls `handleUploadSuccess` (`true` = the gate
passed). -/
def handleUpload (s : AppState) : AppState × Bool :=
  if s.selectedModel = "" then
    ({ s with
       modelMessage := "Please select a model before uploading!"
       timers := s.timers ++ [s.now + 1000] }, false)
  else
    (handleUploadSuccess { s with showModelSelection := false }, true)

/-- Outcome reported by the external upload/classification service for one
network call. -/
inductive ServiceOutcome where
  | ok
  | err (cause : String)
  deriving Repr, DecidableEq

/-- Result of one `attemptUpload` call, per the spec's error taxonomy. -/
inductive UploadResult where
  | success
  | validationError
  | uploadFailed (cause : String)
  deriving Repr, DecidableEq

/-- Everything one `attemptUpload` call produces: its result, the state it
leaves behind, and whether the external service was invoked. -/
structure AttemptOut where
  result : UploadResult
  state : AppState
  networkCalled : Bool
  deriving Repr, DecidableEq

/-- Modelled from the spec: the `Upload` component that performs the actual
network call is not among the provided sources (App.jsx line 136 only wires
`handleUpload` as its `onSuccess` callback), so the dispatch to the external
service and the failure handling follow §4.3 of the spec, with the service's
outcome supplied as a parameter.  The gate and both state updates are the
source's `handleUpload`: when no model is selected the gate branch of
`handleUpload` runs and no network call is made; when the service succeeds
the success branch of `handleUpload` runs; when the service reports failure
the state is left unchanged and the cause is returned. -/
def attemptUpload (outcome : ServiceOutcome) (s : AppState) : AttemptOut :=
  if s.selectedModel = "" then
    { result := .validationError
      state := (handleUpload s).1
      networkCalled := false }
  else
    match outcome with
    | .ok =>
        { result := .success
          state := (handleUpload s).1
          networkCalled := true }
    | .err cause =>
        { result := .uploadFailed cause
          state := s
          networkCalled := true }

/-- The user-visible operations of the core, one constructor per event
handler of App.jsx, plus `advance`, which lets `d` milliseconds pass and
fires every `setTimeout` callback whose deadline has been reached. -/
inductive Op where
  | selectModel (model : String)
  | upload (outcome : ServiceOutcome)
  | viewHistory
  | closeHistory
  | toggleDelete
  | advance (d : Nat)
  deriving Repr, DecidableEq

/-- One step of the state machine.  `selectModel` is `handleModelChange`;
`upload` is `attemptUpload`; `viewHistory` and `closeHistory` are the
`setShowHistory(true)` / `setShowHistory(false)` click handlers (lines 93 and
127); `toggleDelete` is the `setShowDelete(!showDelete)` click handler
(line 99); `advance d` moves time forward and runs every due timeout
callback (each sets `modelMessage` to `""`). -/
def step (op : Op) (s : AppState) : AppState :=
  match op with
  | .selectModel model => handleModelChange model s
  | .upload outcome => (attemptUpload outcome s).state
  | .viewHistory => { s with showHistory := true }
  | .closeHistory => { s with showHistory := false }
  | .toggleDelete => { s with showDelete := !s.showDelete }
  | .advance d =>
      let t := s.now + d
      { s with
        now := t
        modelMessage :=
          if s.timers.any (fun dl => decide (dl ≤ t)) then "" else s.modelMessage
        timers := s.timers.filter (fun dl => decide (t < dl)) }

/-- Run a finite sequence of operations from a state. -/
def run (ops : List Op) (s : AppState) : AppState :=
  ops.foldl (fun st op => step op st) s

/-- The value the spec says `current()` must return after an operation: a
`select` call overwrites the selection, every other operation leaves it
alone. -/
def selectionOf (op : Op) (prev : String) : String :=
  match op with
  | .selectModel m => m
  | _ => prev

/-- The most recently selected value over a sequence of operations, per the
spec sentence "current() always equals the most recently selected value". -/
def mostRecentSelection (ops : List Op) (start : String) : String :=
  ops.foldl (fun acc op => selectionOf op acc) start

/-- Modelled from the spec (§5): a session with its outstanding network
calls.  An `attemptUpload` suspends exactly once, at the network-call
boundary; `pendingCalls` lists the outcome each dispatched-but-not-yet
returned call will eventually report.  The `Upload` component's source is
not provided, and the `AppState` of App.jsx contains no busy flag. -/
structure SessionState where
  app : AppState
  pendingCalls : List ServiceOutcome
  deriving Repr, DecidableEq

/-- Modelled from the spec: the first half of an `attemptUpload`, up to the
suspension at the network-call boundary.  The gate is the source's
`handleUpload` precondition; nothing in the App.jsx state records an
outstanding call, so the dispatch happens whether or not `pendingCalls` is
already non-empty. -/
def startUpload (outcome : ServiceOutcome) (st : SessionState) : SessionState :=
  if st.app.selectedModel = "" then
    { st with app := (handleUpload st.app).1 }
  else
    { st with pendingCalls := st.pendingCalls ++ [outcome] }

/-- Modelled from the spec: the oldest outstanding network call returns.  On
success the source's `onSuccess` callback `handleUpload` runs; on failure
the state is left as it was (§4.3). -/
def completeUpload (st : SessionState) : SessionState :=
  match st.pendingCalls with
  | [] => st
  | outcome :: rest =>
      match outcome with
      | .ok => { app := (handleUpload st.app).1, pendingCalls := rest }
      | .err _ => { st with pendingCalls := rest }

/-- A session that has selected a model and has no call outstanding. -/
def readySession : SessionState :=
  { app := handleModelChange "resnet" initState, pendingCalls := [] }

/-- The event script of the spec's timer-race scenario: two rapid `select`
calls 500 ms apart, then enough time for the first timeout to fire. -/
def raceScript : List Op :=
  [.selectModel "mobilenet", .advance 500, .selectModel "resnet", .advance 500]

/-- No operation writes `selectedModel` except `selectModel` itself. -/
theorem step_selectedModel (op : Op) (s : AppState) :
    (step op s).selectedModel = selectionOf op s.selectedModel := by
  cases op with
  | selectModel m => rfl
  | upload o =>
      by_cases h : s.selectedModel = ""
      · simp [step, attemptUpload, handleUpload, selectionOf, h]
      · cases o <;>
          simp [step, attemptUpload, handleUpload, handleUploadSuccess, selectionOf, h]
  | viewHistory => rfl
  | closeHistory => rfl
  | toggleDelete => rfl
  | advance d => rfl

/-- Once the model selection is hidden, no operation re-shows it. -/
theorem step_keeps_hidden (op : Op) (s : AppState)
    (h : s.showModelSelection = false) : (step op s).showModelSelection = false := by
  cases op with
  | selectModel m => simpa [step, handleModelChange] using h
  | upload o =>
      by_cases hsel : s.selectedModel = ""
      · simpa [step, attemptUpload, handleUpload, hsel] using h
      · cases o with
        | ok => simp [step, attemptUpload, handleUpload, handleUploadSuccess, hsel]
        | err c => simpa [step, attemptUpload, hsel] using h
  | viewHistory => simpa [step] using h
  | closeHistory => simpa [step] using h
  | toggleDelete => simpa [step] using h
  | advance d => simpa [step] using h

/-- Once the model selection is hidden, it stays hidden over any run. -/
theorem run_keeps_hidden : ∀ (ops : List Op) (s : AppState),
    s.showModelSelection = false → (run ops s).showModelSelection = false := by
  intro ops
  induction ops with
  | nil => intro s h; exact h
  | cons op rest ih => intro s h; exact ih (step op s) (step_keeps_hidden op s h)

/-- C1: calling `attemptUpload` while the selected model is the empty string
shows the "Please select a model before uploading!" status message (with its
1000 ms expiry), returns a `ValidationError` result without invoking the
external upload service, and leaves the refresh counter, the model-selector
visibility, the selection and both panel flags unchanged. -/
theorem C1_upload_gate_validation (s : AppState) (o : ServiceOutcome)
    (h : s.selectedModel = "") :
    (attemptUpload o s).result = .validationError ∧
    (attemptUpload o s).networkCalled = false ∧
    (attemptUpload o s).state.modelMessage = "Please select a model before uploading!" ∧
    (attemptUpload o s).state.timers = s.timers ++ [s.now + 1000] ∧
    (attemptUpload o s).state.historyTrigger = s.historyTrigger ∧
    (attemptUpload o s).state.showModelSelection = s.showModelSelection ∧
    (attemptUpload o s).state.selectedModel = s.selectedModel ∧
    (attemptUpload o s).state.showHistory = s.showHistory ∧
    (attemptUpload o s).state.showDelete = s.showDelete := by
  simp [attemptUpload, handleUpload, h]

/-- C1 witness: the gate fires at the initial state, whose selection is
empty. -/
theorem C1_upload_gate_validation_witness :
    (attemptUpload .ok initState).result = .validationError ∧
    (attemptUpload .ok initState).networkCalled = false ∧
    (attemptUpload .ok initState).state.modelMessage = "Please select a model before uploading!" ∧
    (attemptUpload .ok initState).state.timers = initState.timers ++ [initState.now + 1000] ∧
    (attemptUpload .ok initState).state.historyTrigger = initState.historyTrigger ∧
    (attemptUpload .ok initState).state.showModelSelection = initState.showModelSelection ∧
    (attemptUpload .ok initState).state.selectedModel = initState.selectedModel ∧
    (attemptUpload .ok initState).state.showHistory = initState.showHistory ∧
    (attemptUpload .ok initState).state.showDelete = initState.showDelete :=
  C1_upload_gate_validation initState .ok rfl

/-- C3: a successful `attemptUpload` increments `historyTrigger` by exactly
1 and every other outcome leaves it unchanged; no operation of the core
other than a successful upload changes the counter, and every operation
leaves it greater than or equal to its previous value, so the counter is
non-decreasing across the session and strictly increases exactly at
successful uploads. -/
theorem C3_refresh_signal_bump (s : AppState) (o : ServiceOutcome) (op : Op) :
    ((attemptUpload o s).result = .success →
      (attemptUpload o s).state.historyTrigger = s.historyTrigger + 1) ∧
    ((attemptUpload o s).result ≠ .success →
      (attemptUpload o s).state.historyTrigger = s.historyTrigger) ∧
    ((∀ oc : ServiceOutcome, op ≠ .upload oc) →
      (step op s).historyTrigger = s.historyTrigger) ∧
    s.historyTrigger ≤ (step op s).historyTrigger := by
  refine ⟨?_, ?_, ?_, ?_⟩
  · by_cases h : s.selectedModel = ""
    · simp [attemptUpload, handleUpload, h]
    · cases o <;> simp [attemptUpload, handleUpload, handleUploadSuccess, h]
  · by_cases h : s.selectedModel = ""
    · simp [attemptUpload, handleUpload, h]
    · cases o <;> simp [attemptUpload, handleUpload, handleUploadSuccess, h]
  · intro hne
    cases op with
    | selectModel m => rfl
    | upload oc => exact absurd rfl (hne oc)
    | viewHistory => rfl
    | closeHistory => rfl
    | toggleDelete => rfl
    | advance d => rfl
  · cases op with
    | selectModel m => exact le_rfl
    | upload oc =>
        by_cases h : s.selectedModel = ""
        · have htr : (step (.upload oc) s).historyTrigger = s.historyTrigger := by
            simp [step, attemptUpload, handleUpload, h]
          omega
        · cases oc with
          | ok =>
              have htr : (step (.upload .ok) s).historyTrigger = s.historyTrigger + 1 := by
                simp [step, attemptUpload, handleUpload, handleUploadSuccess, h]
              omega
          | err c =>
              have htr : (step (.upload (.err c)) s).historyTrigger = s.historyTrigger := by
                simp [step, attemptUpload, h]
              omega
    | viewHistory => exact le_rfl
    | closeHistory => exact le_rfl
    | toggleDelete => exact le_rfl
    | advance d => exact le_rfl

/-- C3 witness: after selecting "resnet", a successful upload moves the
counter from 0 to 1, a failed upload leaves it at 0, and toggling the
delete panel leaves it at 0. -/
theorem C3_refresh_signal_bump_witness :
    (attemptUpload .ok (handleModelChange "resnet" initState)).state.historyTrigger =
      (handleModelChange "resnet" initState).historyTrigger + 1 ∧
    (attemptUpload (.err "network error") (handleModelChange "resnet" initState)).state.historyTrigger =
      (handleModelChange "resnet" initState).historyTrigger ∧
    (step .toggleDelete initState).historyTrigger = initState.historyTrigger :=
  ⟨(C3_refresh_signal_bump (handleModelChange "resnet" initState) .ok .toggleDelete).1
      (by decide),
   (C3_refresh_signal_bump (handleModelChange "resnet" initState) (.err "network error")
      .toggleDelete).2.1 (by decide),
   (C3_refresh_signal_bump initState .ok .toggleDelete).2.2.1 (by intro oc; simp)⟩

/-- C4: the model-selector visibility starts `true`, a successful
`attemptUpload` sets it to `false`, and once it is `false` no sequence of
further operations ever makes it `true` again. -/
theorem C4_model_selector_one_way (s : AppState) (o : ServiceOutcome) (ops : List Op) :
    initState.showModelSelection = true ∧
    ((attemptUpload o s).result = .success →
      (attemptUpload o s).state.showModelSelection = false) ∧
    (s.showModelSelection = false → (run ops s).showModelSelection = false) := by
  refine ⟨rfl, ?_, fun h => run_keeps_hidden ops s h⟩
  by_cases h : s.selectedModel = ""
  · simp [attemptUpload, h]
  · cases o <;> simp [attemptUpload, handleUpload, handleUploadSuccess, h]

/-- C4 witness: the first successful upload hides the selector and it stays
hidden over a later run of operations. -/
theorem C4_model_selector_one_way_witness :
    (attemptUpload .ok (handleModelChange "resnet" initState)).state.showModelSelection = false ∧
    (run [Op.toggleDelete, Op.advance 2000]
      (attemptUpload .ok (handleModelChange "resnet" initState)).state).showModelSelection = false :=
  ⟨(C4_model_selector_one_way (handleModelChange "resnet" initState) .ok []).2.1
      (by decide),
   (C4_model_selector_one_way (attemptUpload .ok (handleModelChange "resnet" initState)).state
      .ok [Op.toggleDelete, Op.advance 2000]).2.2 (by decide)⟩

/-- C5: when the external service reports failure while a model is
selected, `attemptUpload` returns `UploadFailed` carrying the reported
cause, the service was invoked, and the state is exactly the pre-attempt
state — in particular the model-selector visibility and the refresh counter
are unchanged. -/
theorem C5_upload_failure_rollback (s : AppState) (c : String)
    (h : ¬ s.selectedModel = "") :
    (attemptUpload (.err c) s).result = .uploadFailed c ∧
    (attemptUpload (.err c) s).networkCalled = true ∧
    (attemptUpload (.err c) s).state = s ∧
    (attemptUpload (.err c) s).state.showModelSelection = s.showModelSelection ∧
    (attemptUpload (.err c) s).state.historyTrigger = s.historyTrigger := by
  simp [attemptUpload, h]

/-- C5 witness: a failed upload after selecting "resnet" rolls back to the
pre-attempt state. -/
theorem C5_upload_failure_rollback_witness :
    (attemptUpload (.err "network error") (handleModelChange "resnet" initState)).result =
      .uploadFailed "network error" ∧
    (attemptUpload (.err "network error") (handleModelChange "resnet" initState)).networkCalled = true ∧
    (attemptUpload (.err "network error") (handleModelChange "resnet" initState)).state =
      handleModelChange "resnet" initState ∧
    (attemptUpload (.err "network error") (handleModelChange "resnet" initState)).state.showModelSelection =
      (handleModelChange "resnet" initState).showModelSelection ∧
    (attemptUpload (.err "network error") (handleModelChange "resnet" initState)).state.historyTrigger =
      (handleModelChange "resnet" initState).historyTrigger :=
  C5_upload_failure_rollback (handleModelChange "resnet" initState) "network error" (by decide)

/-- C7: over every finite sequence of operations, `selectedModel` equals
the value passed to the most recent `select` call (or the starting value if
none occurred): selection is last-write-wins and mutated only by explicit
selection. -/
theorem C7_selection_last_write_wins : ∀ (ops : List Op) (s : AppState),
    (run ops s).selectedModel = mostRecentSelection ops s.selectedModel := by
  intro ops
  induction ops with
  | nil => intro s; rfl
  | cons op rest ih =>
      intro s
      have h1 : run (op :: rest) s = run rest (step op s) := rfl
      have h2 : mostRecentSelection (op :: rest) s.selectedModel =
          mostRecentSelection rest (selectionOf op s.selectedModel) := rfl
      rw [h1, h2, ← step_selectedModel op s]
      exact ih (step op s)

/-- C8: every `select` call with a non-empty model identifier synchronously
shows the selection status message built from it and schedules that
message's 1000 ms expiry. -/
theorem C8_select_shows_message (s : AppState) (m : String) (h : ¬ m = "") :
    (handleModelChange m s).modelMessage = "Model \"" ++ m ++ "\" selected!" ∧
    (handleModelChange m s).timers = s.timers ++ [s.now + 1000] := by
  simp [handleModelChange]

/-- C8 witness: selecting "resnet" at the initial state shows its message
and schedules the expiry at 1000 ms. -/
theorem C8_select_shows_message_witness :
    (handleModelChange "resnet" initState).modelMessage =
      "Model \"" ++ "resnet" ++ "\" selected!" ∧
    (handleModelChange "resnet" initState).timers =
      initState.timers ++ [initState.now + 1000] :=
  C8_select_shows_message initState "resnet" (by decide)

/-- C9: `toggleDelete` only flips `deleteOpen` (twice returns it to its
original value), `viewHistory` only sets `historyOpen` true, `closeHistory`
only sets it false, and an open followed by a close leaves `historyOpen`
false — each operation leaving all other state unchanged for any value of
the other flag. -/
theorem C9_panel_flags_algebra (s : AppState) :
    step .toggleDelete s = { s with showDelete := !s.showDelete } ∧
    (step .toggleDelete (step .toggleDelete s)).showDelete = s.showDelete ∧
    step .viewHistory s = { s with showHistory := true } ∧
    step .closeHistory s = { s with showHistory := false } ∧
    (step .closeHistory (step .viewHistory s)).showHistory = false := by
  refine ⟨rfl, ?_, rfl, rfl, rfl⟩
  simp [step]

/-- C10: `select` stores any string without validating it against the model
enumeration and fires the selection message on every call; selecting the
placeholder stores the empty string, shows the message with the empty name,
and a subsequent upload with that selection yields `ValidationError` for
every service outcome. -/
theorem C10_select_accepts_any_string (s : AppState) (m : String) :
    (handleModelChange m s).selectedModel = m ∧
    (handleModelChange m s).modelMessage = "Model \"" ++ m ++ "\" selected!" ∧
    (handleModelChange "" s).selectedModel = "" ∧
    (handleModelChange "" s).modelMessage = "Model \"\" selected!" ∧
    ∀ o : ServiceOutcome,
      (attemptUpload o (handleModelChange "" s)).result = .validationError := by
  refine ⟨rfl, rfl, rfl, rfl, fun o => ?_⟩
  simp [attemptUpload, handleModelChange]

/-- C2: the timer race the spec forbids actually happens in the code.
`handleModelChange` never calls `clearTimeout`, so after select "mobilenet"
at t = 0 and select "resnet" at t = 500 both timeouts are still pending; at
t = 1000 the superseded mobilenet timeout fires and clears the message even
though the resnet message's own expiry (deadline 1500) has not passed: the
displayed message is the empty string, not the resnet message the most
recent call's lifecycle prescribes. -/
theorem C2_stale_timer_clears_newer_message :
    (run [.selectModel "mobilenet", .advance 500, .selectModel "resnet"] initState).timers =
      [1000, 1500] ∧
    (run raceScript initState).now = 1000 ∧
    (run raceScript initState).timers = [1500] ∧
    (run raceScript initState).modelMessage = "" ∧
    (run raceScript initState).modelMessage ≠ "Model \"resnet\" selected!" := by
  refine ⟨rfl, rfl, ?_, ?_, ?_⟩ <;> decide

/-- C6: nothing guards against overlapping upload attempts.  From a session
that selected "resnet", triggering a second upload while the first is
suspended at the network-call boundary is accepted (two calls outstanding),
and when both calls return successfully the refresh counter has been bumped
twice. -/
theorem C6_no_overlap_guard :
    (startUpload .ok (startUpload .ok readySession)).pendingCalls.length = 2 ∧
    (completeUpload (completeUpload
      (startUpload .ok (startUpload .ok readySession)))).app.historyTrigger = 2 ∧
    (completeUpload (completeUpload
      (startUpload .ok (startUpload .ok readySession)))).pendingCalls = [] := by
  refine ⟨?_, ?_, ?_⟩ <;> decide

end CropYield
